import Mathlib

/-!
Shallow embedding of `src/dev.js` (animal-farm-backend): an Express + Mongoose
CRUD API over two collections, `Category` and `Animal`, with a multer upload
middleware for animal images.

The MongoDB store is modelled as explicit state (`StoreState`, two lists of
documents). Mongoose operations that cast a string to an `ObjectId`
(`findById`, `findByIdAndDelete`, `findByIdAndUpdate`, and `find` on an
ObjectId-typed field) throw a `CastError` on a malformed identifier; this is
modelled with `Except StoreError`. The `try/catch` of each handler maps a thrown
store error to its 500 response, exactly as in the source. Handlers that
mutate the store return the new state alongside the response.

The filesystem directory `uploads/animals` is modelled as a list of stored
filenames. JavaScript string falsiness (`!x` true for `undefined`/`null`/`""`)
is modelled by `isTruthy` on `Option String`. Timestamps (`createdAt` and
`updatedAt`, and the schema-level machinery) are omitted: no claim mentions
them.
-/

/-- A `Category` document: `categorySchema` has a required `name` plus the
Mongo-generated `_id` (timestamps omitted). -/
structure Category where
  _id : String
  name : String
deriving Repr, DecidableEq

/-- An `Animal` document: `animalSchema` has a required `name`, an optional
`image` path, and an optional `category` reference holding a `Category`
ObjectId (timestamps omitted). -/
structure Animal where
  _id : String
  name : String
  image : Option String
  category : Option String
deriving Repr, DecidableEq

/-- An animal after populating the category field: the `category` reference
is replaced by the full referenced document (or null when the reference is
null or dangling). -/
structure PopulatedAnimal where
  _id : String
  name : String
  image : Option String
  category : Option Category
deriving Repr, DecidableEq

/-- The MongoDB database: the two collections used by `dev.js`. -/
structure StoreState where
  categories : List Category
  animals : List Animal
deriving Repr, DecidableEq

/-- Errors thrown by the mongoose driver: a `CastError` when a string cannot
be cast to `ObjectId`. -/
inductive StoreError where
  | castError
deriving Repr, DecidableEq

/-- HTTP response body shapes produced by the handlers in `dev.js`. Each
constructor records the payload of the corresponding `res.json(...)` call;
only the fields the claims speak about are kept (the `message` field of an
error payload, the returned documents). -/
inductive Body where
  | message (msg : String)
  | categories (cs : List Category)
  | category (c : Category)
  | categoryWithAnimals (c : Category) (animals : List PopulatedAnimal)
  | animals (xs : List PopulatedAnimal)
  | animalCreated (msg : String) (a : Animal)
deriving Repr, DecidableEq

/-- An HTTP response: status code and JSON body. -/
structure Response where
  status : Nat
  body : Body
deriving Repr, DecidableEq

/-- JavaScript truthiness of a possibly-absent string: `undefined`, `null`
and `""` are falsy, every other string is truthy. -/
def isTruthy : Option String → Bool
  | none => false
  | some str => !(str == "")

/-- Hexadecimal digit, as accepted by the ObjectId format. -/
def isHexDigit (c : Char) : Bool :=
  ('0' ≤ c && c ≤ '9') || ('a' ≤ c && c ≤ 'f') || ('A' ≤ c && c ≤ 'F')

/-- `mongoose.Types.ObjectId.isValid` on a string: true for a 24-character
hexadecimal string, or for any 12-character string (interpreted as a raw
12-byte id; character count stands in for byte count). -/
def isValidObjectId (s : String) : Bool :=
  (s.length == 24 && s.toList.all isHexDigit) || s.length == 12

/-- `Category.findById(id)`: throws `CastError` on a malformed id, otherwise
returns the document with that `_id` or null. -/
def categoryFindById (id : String) (s : StoreState) :
    Except StoreError (Option Category) :=
  if isValidObjectId id then
    .ok (s.categories.find? (fun c => c._id == id))
  else .error .castError

/-- `Category.findByIdAndDelete(id)`: throws `CastError` on a malformed id;
otherwise deletes the document with that `_id` (Mongo enforces `_id`
uniqueness, so removing every match removes the one match) and returns the
deleted document, or null when absent. -/
def categoryFindByIdAndDelete (id : String) (s : StoreState) :
    Except StoreError (Option Category × StoreState) :=
  if isValidObjectId id then
    match s.categories.find? (fun c => c._id == id) with
    | none => .ok (none, s)
    | some c =>
        .ok (some c, { s with categories := s.categories.filter (fun d => !(d._id == id)) })
  else .error .castError

/-- `Category.findByIdAndUpdate` with the new name and the new:true option:
throws `CastError`
on a malformed id; otherwise overwrites `name` and returns the updated
document, or null when absent. -/
def categoryFindByIdAndUpdate (id newName : String) (s : StoreState) :
    Except StoreError (Option Category × StoreState) :=
  if isValidObjectId id then
    match s.categories.find? (fun c => c._id == id) with
    | none => .ok (none, s)
    | some c =>
        .ok (some { c with name := newName },
          { s with categories :=
              s.categories.map (fun d => if d._id == id then { d with name := newName } else d) })
  else .error .castError

/-- `Animal.find` filtered on the `category` field: the filter value is cast to `ObjectId`
(the schema types `category` as an ObjectId ref), so a malformed id throws
`CastError`; otherwise returns the animals referencing that category. -/
def animalFindByCategory (id : String) (s : StoreState) :
    Except StoreError (List Animal) :=
  if isValidObjectId id then
    .ok (s.animals.filter (fun a => a.category == some id))
  else .error .castError

/-- `Animal.findByIdAndDelete(id)`: throws `CastError` on a malformed id;
otherwise deletes the document with that `_id` (if any) and returns it or
null. -/
def animalFindByIdAndDelete (id : String) (s : StoreState) :
    Except StoreError (Option Animal × StoreState) :=
  if isValidObjectId id then
    match s.animals.find? (fun a => a._id == id) with
    | none => .ok (none, s)
    | some a =>
        .ok (some a, { s with animals := s.animals.filter (fun b => !(b._id == id)) })
  else .error .castError

/-- The populate step on one animal: resolve the stored ObjectId
reference to the full `Category` document (null when the reference is null or
names no category). -/
def populateAnimal (s : StoreState) (a : Animal) : PopulatedAnimal :=
  { _id := a._id, name := a.name, image := a.image,
    category := a.category.bind (fun cid => s.categories.find? (fun c => c._id == cid)) }

/-- `getCategories` (GET /api/categories): 404 when the collection is empty,
otherwise 200 with every category. -/
def getCategories (s : StoreState) : Response :=
  if s.categories.length == 0 then ⟨404, Body.message "No categories found"⟩
  else ⟨200, Body.categories s.categories⟩

/-- `getCategoryById` (GET /api/category/:categoryId): 400 on a malformed id
before any store access; 404 when absent; otherwise 200 with the category and
its populated animals. The catch branch maps a thrown store error to 500. -/
def getCategoryById (categoryId : String) (s : StoreState) : Response :=
  if !(isValidObjectId categoryId) then ⟨400, Body.message "Invalid category ID format"⟩
  else
    match categoryFindById categoryId s with
    | .error _ => ⟨500, Body.message "Error fetching category and animals"⟩
    | .ok none => ⟨404, Body.message "Category not found"⟩
    | .ok (some category) =>
        match animalFindByCategory categoryId s with
        | .error _ => ⟨500, Body.message "Error fetching category and animals"⟩
        | .ok animals =>
            ⟨200, Body.categoryWithAnimals category (animals.map (populateAnimal s))⟩

/-- `addCategory` (POST /api/category): 400 when `name` is falsy, otherwise
saves a new category (with a store-generated fresh id, passed here as the
`freshId` parameter) and returns it with 201. -/
def addCategory (name : Option String) (freshId : String) (s : StoreState) :
    Response × StoreState :=
  if !(isTruthy name) then (⟨400, Body.message "Category name is required"⟩, s)
  else
    let newCategory : Category := { _id := freshId, name := name.getD "" }
    (⟨201, Body.category newCategory⟩,
     { s with categories := s.categories ++ [newCategory] })

/-- `updateCategory` (PUT /api/category/:categoryId): 400 on a malformed id,
then 400 on a falsy name, then `findByIdAndUpdate`; 404 when the id resolves
to nothing, otherwise 200 with the updated document. -/
def updateCategory (categoryId : String) (name : Option String) (s : StoreState) :
    Response × StoreState :=
  if !(isValidObjectId categoryId) then
    (⟨400, Body.message "Invalid category ID format"⟩, s)
  else if !(isTruthy name) then
    (⟨400, Body.message "Category name is required to update"⟩, s)
  else
    match categoryFindByIdAndUpdate categoryId (name.getD "") s with
    | .error _ => (⟨500, Body.message "Error updating category"⟩, s)
    | .ok (none, s1) => (⟨404, Body.message "Category not found"⟩, s1)
    | .ok (some updated, s1) => (⟨200, Body.category updated⟩, s1)

/-- `deleteCategory` (DELETE /api/category/:id): 400 on a malformed id, then
`findByIdAndDelete`; 404 when absent, otherwise 200 with a confirmation
message. Only the category collection is touched. -/
def deleteCategory (id : String) (s : StoreState) : Response × StoreState :=
  if !(isValidObjectId id) then (⟨400, Body.message "Invalid category ID format"⟩, s)
  else
    match categoryFindByIdAndDelete id s with
    | .error _ => (⟨500, Body.message "Error deleting category"⟩, s)
    | .ok (none, s1) => (⟨404, Body.message "Category not found"⟩, s1)
    | .ok (some _, s1) => (⟨200, Body.message "Category deleted successfully"⟩, s1)

/-- `getAnimals` (GET /api/animals): 200 with every animal, populated. -/
def getAnimals (s : StoreState) : Response :=
  ⟨200, Body.animals (s.animals.map (populateAnimal s))⟩

/-- `addAnimal` (handler body of POST /api/animal/category/:categoryId):
`image` is the static URL built from the multer filename when a file was
uploaded, else null; then three presence checks (each 400 with its message
as written in the source), then `Category.findById` — note no ObjectId
format validation, so a malformed `categoryId` throws inside the try and is
caught as 500 — then 404 when the category is absent, otherwise the new
animal is saved (fresh store-generated id passed as `freshId`) and returned
with 201. -/
def addAnimal (categoryId name filename : Option String) (freshId : String)
    (s : StoreState) : Response × StoreState :=
  let image : Option String := filename.map (fun f => "/uploads/animals/" ++ f)
  if !(isTruthy categoryId) then (⟨400, Body.message "Missing Category Id"⟩, s)
  else if !(isTruthy name) then (⟨400, Body.message "Missing Image required fields."⟩, s)
  else if image.isNone then (⟨400, Body.message "Missing required fields."⟩, s)
  else
    match categoryFindById (categoryId.getD "") s with
    | .error _ => (⟨500, Body.message "Internal server error while adding animal."⟩, s)
    | .ok none => (⟨404, Body.message "Category not found"⟩, s)
    | .ok (some category) =>
        let newAnimal : Animal :=
          { _id := freshId, name := name.getD "", image := image,
            category := some category._id }
        (⟨201, Body.animalCreated "Animal added successfully." newAnimal⟩,
         { s with animals := s.animals ++ [newAnimal] })

/-- `deleteAnimal` (DELETE /api/animals/:id): no validation and no existence
check — `findByIdAndDelete` straight away, 200 with a confirmation message
whatever it returned; a thrown store error is caught as 500. -/
def deleteAnimal (id : String) (s : StoreState) : Response × StoreState :=
  match animalFindByIdAndDelete id s with
  | .error _ => (⟨500, Body.message "Error deleting animal"⟩, s)
  | .ok (_, s1) => (⟨200, Body.message "Animal deleted successfully"⟩, s1)

/-- `getAnimalsByCategoryId` (GET /api/animals/category/:categoryId): no
ObjectId format validation; `Animal.find` on the category field then populate (a malformed
id throws, caught as 500), 404 when the filtered list is empty, otherwise
200 with the populated animals. -/
def getAnimalsByCategoryId (categoryId : String) (s : StoreState) : Response :=
  match animalFindByCategory categoryId s with
  | .error _ => ⟨500, Body.message "Error fetching animals by category ID"⟩
  | .ok animals =>
      if animals.length == 0 then ⟨404, Body.message "No animals found in this category"⟩
      else ⟨200, Body.animals (animals.map (populateAnimal s))⟩

/-- `getAnimalsByCategoryName` (GET /api/animals/category/name/:categoryName):
`findOne` by exact name (no cast involved), 404 when no category matches,
then filter animals by the found category id, 404 when empty, else 200. -/
def getAnimalsByCategoryName (categoryName : String) (s : StoreState) : Response :=
  match s.categories.find? (fun c => c.name == categoryName) with
  | none => ⟨404, Body.message "Category not found"⟩
  | some category =>
      let animals := s.animals.filter (fun a => a.category == some category._id)
      if animals.length == 0 then ⟨404, Body.message "No animals found in this category"⟩
      else ⟨200, Body.animals (animals.map (populateAnimal s))⟩

/-- Multer rejection: the only limit configured is `fileSize`. -/
inductive MulterError where
  | limitFileSize
deriving Repr, DecidableEq

/-- The configured multer `fileSize` limit: 5 * 1024 * 1024 bytes. -/
def multerFileSizeLimit : Nat := 5 * 1024 * 1024

/-- Metadata of the file carried by a multipart request (the multer fields
`originalname` and byte `size`). -/
structure UploadedFile where
  originalname : String
  size : Nat
deriving Repr, DecidableEq

/-- The `uploadAnimalImage` middleware (multer with the disk storage and the
size limit, as `.single` on the image field):
with no file the request passes through; a file over the size limit aborts
with `LIMIT_FILE_SIZE` (disk storage removes the partial file, so the
filesystem is unchanged); otherwise the file is written to `uploads/animals`
under the `Date.now()` timestamp, a dash, and `originalname`, and `req.file`
is set. `now`
is the `Date.now()` timestamp; the filesystem is the list of stored
filenames. -/
def uploadAnimalImage (now : Nat) (file : Option UploadedFile) (fs : List String) :
    Except MulterError (Option String × List String) :=
  match file with
  | none => .ok (none, fs)
  | some f =>
      if multerFileSizeLimit < f.size then .error .limitFileSize
      else
        let fname := toString now ++ "-" ++ f.originalname
        .ok (some fname, fname :: fs)

/-- The full POST /api/animal/category/:categoryId pipeline
(`app.post(..., uploadAnimalImage, addAnimal)`): the multer middleware runs
first; on a multer error the handler never runs and, the app installing no
error-handling middleware and `MulterError` carrying no `status` field,
the default Express final handler answers 500 ("File too large" is the
`MulterError` message). Otherwise `addAnimal` runs with `req.file` as left
by the middleware. Returns (response, store, filesystem). -/
def postAnimalCategoryRoute (now : Nat) (freshId : String)
    (categoryId name : Option String) (file : Option UploadedFile)
    (s : StoreState) (fs : List String) : Response × StoreState × List String :=
  match uploadAnimalImage now file fs with
  | .error _ => (⟨500, Body.message "File too large"⟩, s, fs)
  | .ok (fname, fs1) =>
      let rs := addAnimal categoryId name fname freshId s
      (rs.1, rs.2, fs1)

/-- The static URL under which `express.static` serves a stored file:
the mount prefix "/uploads/animals" mirrors the storage directory. -/
def staticUrlOf (fname : String) : String := "/uploads/animals/" ++ fname

/-- Whether the static mount of `uploadDir` at the uploads-animals prefix
serves the given URL: the static URL of some stored file equals it. -/
def staticServes (url : String) (fs : List String) : Bool :=
  fs.any (fun f => staticUrlOf f == url)

/-- Helper: a string that passes the ObjectId validity check is nonempty,
hence truthy. -/
theorem isTruthy_of_validObjectId {cid : String} (h : isValidObjectId cid = true) :
    isTruthy (some cid) = true := by
  cases hc : cid == "" with
  | false => simp [isTruthy, hc]
  | true =>
      have he : cid = "" := eq_of_beq hc
      rw [he] at h
      exact absurd h (by decide)

/-- Claim C3: listing categories answers 404 with the no-categories message
when the store holds zero categories (never an empty 200 list), and 200 with
the full list when it holds at least one. -/
theorem getCategories_empty404_nonempty200 (s : StoreState) :
    (s.categories = [] → getCategories s = ⟨404, Body.message "No categories found"⟩)
    ∧ (s.categories ≠ [] → getCategories s = ⟨200, Body.categories s.categories⟩) := by
  constructor
  · intro h
    simp [getCategories, h]
  · intro h
    simp [getCategories, List.length_eq_zero, h]

/-- Witness for C3: the empty store answers 404, a one-category store answers
200 with that category. -/
theorem getCategories_empty404_nonempty200_witness :
    getCategories ⟨[], []⟩ = ⟨404, Body.message "No categories found"⟩
    ∧ getCategories ⟨[⟨"aaaaaaaaaaaaaaaaaaaaaaaa", "Reptiles"⟩], []⟩
        = ⟨200, Body.categories [⟨"aaaaaaaaaaaaaaaaaaaaaaaa", "Reptiles"⟩]⟩ :=
  ⟨(getCategories_empty404_nonempty200 ⟨[], []⟩).1 rfl,
   (getCategories_empty404_nonempty200 ⟨[⟨"aaaaaaaaaaaaaaaaaaaaaaaa", "Reptiles"⟩], []⟩).2
     (by decide)⟩

/-- Claim C8: deleting a category leaves the animal collection untouched in
every case (malformed id, absent category, or successful delete): orphaned
references are preserved, never deleted or rewritten. -/
theorem deleteCategory_preserves_animals (id : String) (s : StoreState) :
    ((deleteCategory id s).2).animals = s.animals := by
  by_cases h : isValidObjectId id
  · cases hf : s.categories.find? (fun c => c._id == id) <;>
      simp [deleteCategory, categoryFindByIdAndDelete, h, hf]
  · simp [deleteCategory, h]

/-- Claim C6: the delete-animal handler performs no existence check: for any
well-formed identifier it answers 200 with the confirmation message whether
or not an animal with that id exists in the store. -/
theorem deleteAnimal_no_existence_check (id : String) (s : StoreState)
    (hvalid : isValidObjectId id = true) :
    (deleteAnimal id s).1 = ⟨200, Body.message "Animal deleted successfully"⟩ := by
  cases hf : s.animals.find? (fun a => a._id == id) <;>
    simp [deleteAnimal, animalFindByIdAndDelete, hvalid, hf]

/-- Witness for C6: a delete against an empty store and a delete of an animal
that does exist both answer 200 with the confirmation message. -/
theorem deleteAnimal_no_existence_check_witness :
    (deleteAnimal "aaaaaaaaaaaaaaaaaaaaaaaa" ⟨[], []⟩).1
        = ⟨200, Body.message "Animal deleted successfully"⟩
    ∧ (deleteAnimal "aaaaaaaaaaaaaaaaaaaaaaaa"
          ⟨[], [⟨"aaaaaaaaaaaaaaaaaaaaaaaa", "Lion", none, none⟩]⟩).1
        = ⟨200, Body.message "Animal deleted successfully"⟩ :=
  ⟨deleteAnimal_no_existence_check "aaaaaaaaaaaaaaaaaaaaaaaa" ⟨[], []⟩ (by decide),
   deleteAnimal_no_existence_check "aaaaaaaaaaaaaaaaaaaaaaaa"
     ⟨[], [⟨"aaaaaaaaaaaaaaaaaaaaaaaa", "Lion", none, none⟩]⟩ (by decide)⟩

/-- Claim C10: the three missing-field rejections of the create-animal handler
carry exactly the mismatched message texts of the source, each with status
400: missing categoryId answers the missing-category-id message, missing name
answers the message that wrongly speaks of the image, and missing image
answers the generic missing-required-fields message. -/
theorem addAnimal_missingField_messages (categoryId name filename : Option String)
    (freshId : String) (s : StoreState) :
    (isTruthy categoryId = false →
      addAnimal categoryId name filename freshId s
        = (⟨400, Body.message "Missing Category Id"⟩, s))
    ∧ (isTruthy categoryId = true → isTruthy name = false →
      addAnimal categoryId name filename freshId s
        = (⟨400, Body.message "Missing Image required fields."⟩, s))
    ∧ (isTruthy categoryId = true → isTruthy name = true → filename = none →
      addAnimal categoryId name filename freshId s
        = (⟨400, Body.message "Missing required fields."⟩, s)) := by
  refine ⟨fun h1 => ?_, fun h1 h2 => ?_, fun h1 h2 h3 => ?_⟩
  · simp [addAnimal, h1]
  · simp [addAnimal, h1, h2]
  · simp [addAnimal, h1, h2, h3]

/-- Witness for C10: the three rejection messages at concrete requests. -/
theorem addAnimal_missingField_messages_witness :
    addAnimal none (some "Iguana") (some "f.png") "x" ⟨[], []⟩
      = (⟨400, Body.message "Missing Category Id"⟩, ⟨[], []⟩)
    ∧ addAnimal (some "aaaaaaaaaaaaaaaaaaaaaaaa") none (some "f.png") "x" ⟨[], []⟩
      = (⟨400, Body.message "Missing Image required fields."⟩, ⟨[], []⟩)
    ∧ addAnimal (some "aaaaaaaaaaaaaaaaaaaaaaaa") (some "Iguana") none "x" ⟨[], []⟩
      = (⟨400, Body.message "Missing required fields."⟩, ⟨[], []⟩) :=
  ⟨(addAnimal_missingField_messages none (some "Iguana") (some "f.png") "x" ⟨[], []⟩).1
     (by decide),
   (addAnimal_missingField_messages (some "aaaaaaaaaaaaaaaaaaaaaaaa") none (some "f.png")
     "x" ⟨[], []⟩).2.1 (by decide) (by decide),
   (addAnimal_missingField_messages (some "aaaaaaaaaaaaaaaaaaaaaaaa") (some "Iguana") none
     "x" ⟨[], []⟩).2.2 (by decide) (by decide) rfl⟩

/-- Claim C7: a create-animal request missing the categoryId, missing the
name, or missing the uploaded image answers 400 in each respective case, and
the store is left exactly as it was (no animal persisted). -/
theorem addAnimal_missingFields_400_noPersist (categoryId name filename : Option String)
    (freshId : String) (s : StoreState) :
    (isTruthy categoryId = false →
      (addAnimal categoryId name filename freshId s).1.status = 400
      ∧ (addAnimal categoryId name filename freshId s).2 = s)
    ∧ (isTruthy name = false →
      (addAnimal categoryId name filename freshId s).1.status = 400
      ∧ (addAnimal categoryId name filename freshId s).2 = s)
    ∧ (filename = none →
      (addAnimal categoryId name filename freshId s).1.status = 400
      ∧ (addAnimal categoryId name filename freshId s).2 = s) := by
  refine ⟨fun h => ?_, fun h => ?_, fun h => ?_⟩
  · simp [addAnimal, h]
  · by_cases h1 : isTruthy categoryId <;> simp [addAnimal, h, h1]
  · by_cases h1 : isTruthy categoryId <;> by_cases h2 : isTruthy name <;>
      simp [addAnimal, h, h1, h2]

/-- Witness for C7: each of the three missing-field requests answers 400 and
leaves the empty store empty. -/
theorem addAnimal_missingFields_400_noPersist_witness :
    ((addAnimal none (some "Iguana") (some "f.png") "x" ⟨[], []⟩).1.status = 400
      ∧ (addAnimal none (some "Iguana") (some "f.png") "x" ⟨[], []⟩).2 = ⟨[], []⟩)
    ∧ ((addAnimal (some "aaaaaaaaaaaaaaaaaaaaaaaa") none (some "f.png") "x" ⟨[], []⟩).1.status
        = 400
      ∧ (addAnimal (some "aaaaaaaaaaaaaaaaaaaaaaaa") none (some "f.png") "x" ⟨[], []⟩).2
        = ⟨[], []⟩)
    ∧ ((addAnimal (some "aaaaaaaaaaaaaaaaaaaaaaaa") (some "Iguana") none "x" ⟨[], []⟩).1.status
        = 400
      ∧ (addAnimal (some "aaaaaaaaaaaaaaaaaaaaaaaa") (some "Iguana") none "x" ⟨[], []⟩).2
        = ⟨[], []⟩) :=
  ⟨(addAnimal_missingFields_400_noPersist none (some "Iguana") (some "f.png") "x" ⟨[], []⟩).1
     (by decide),
   (addAnimal_missingFields_400_noPersist (some "aaaaaaaaaaaaaaaaaaaaaaaa") none (some "f.png")
     "x" ⟨[], []⟩).2.1 (by decide),
   (addAnimal_missingFields_400_noPersist (some "aaaaaaaaaaaaaaaaaaaaaaaa") (some "Iguana") none
     "x" ⟨[], []⟩).2.2 rfl⟩

/-- Claim C4: a create-animal request with all fields present and a
well-formed categoryId that names no existing category answers 404 and
leaves the store exactly as it was (no animal persisted). -/
theorem addAnimal_missingCategory_404_noPersist (cid : String)
    (name filename : Option String) (freshId : String) (s : StoreState)
    (hname : isTruthy name = true) (hfile : filename.isSome = true)
    (hvalid : isValidObjectId cid = true)
    (habsent : s.categories.find? (fun c => c._id == cid) = none) :
    addAnimal (some cid) name filename freshId s
      = (⟨404, Body.message "Category not found"⟩, s) := by
  obtain ⟨f, rfl⟩ := Option.isSome_iff_exists.mp hfile
  simp [addAnimal, isTruthy_of_validObjectId hvalid, hname, categoryFindById, hvalid, habsent]

/-- Witness for C4: a well-formed id against the empty store answers 404 and
the store stays empty. -/
theorem addAnimal_missingCategory_404_noPersist_witness :
    addAnimal (some "aaaaaaaaaaaaaaaaaaaaaaaa") (some "Iguana") (some "f.png") "x" ⟨[], []⟩
      = (⟨404, Body.message "Category not found"⟩, ⟨[], []⟩) :=
  addAnimal_missingCategory_404_noPersist "aaaaaaaaaaaaaaaaaaaaaaaa" (some "Iguana")
    (some "f.png") "x" ⟨[], []⟩ (by decide) rfl (by decide) rfl

/-- Counterexample to claim C1 as stated: the delete-animal handler and the
list-animals-by-category handler do NOT validate the identifier, so the
malformed identifier "bad-id" reaches the store and each handler answers 500
(the caught cast error), not the claimed 400. -/
theorem idValidation_claim_counterexample :
    (deleteAnimal "bad-id" ⟨[], []⟩).1 = ⟨500, Body.message "Error deleting animal"⟩
    ∧ getAnimalsByCategoryId "bad-id" ⟨[], []⟩
        = ⟨500, Body.message "Error fetching animals by category ID"⟩ := by
  decide

/-- Claim C1 as amended: only the three category handlers (get by id, update,
delete) validate the path identifier and answer 400 with the store untouched;
the delete-animal, list-animals-by-category-id and create-animal handlers pass
a malformed identifier to the store, where the cast error surfaces as a 500
response. -/
theorem idValidation_amended (id : String) (s : StoreState)
    (h : isValidObjectId id = false) :
    getCategoryById id s = ⟨400, Body.message "Invalid category ID format"⟩
    ∧ (∀ name, updateCategory id name s
        = (⟨400, Body.message "Invalid category ID format"⟩, s))
    ∧ deleteCategory id s = (⟨400, Body.message "Invalid category ID format"⟩, s)
    ∧ (deleteAnimal id s).1 = ⟨500, Body.message "Error deleting animal"⟩
    ∧ getAnimalsByCategoryId id s
        = ⟨500, Body.message "Error fetching animals by category ID"⟩
    ∧ (∀ name filename freshId, isTruthy (some id) = true → isTruthy name = true →
        filename.isSome = true →
        (addAnimal (some id) name filename freshId s).1
          = ⟨500, Body.message "Internal server error while adding animal."⟩) := by
  refine ⟨?_, ?_, ?_, ?_, ?_, ?_⟩
  · simp [getCategoryById, h]
  · intro name
    simp [updateCategory, h]
  · simp [deleteCategory, h]
  · simp [deleteAnimal, animalFindByIdAndDelete, h]
  · simp [getAnimalsByCategoryId, animalFindByCategory, h]
  · intro name filename freshId h1 h2 h3
    obtain ⟨f, rfl⟩ := Option.isSome_iff_exists.mp h3
    simp [addAnimal, h1, h2, categoryFindById, h]

/-- Witness for amended C1: all six handlers evaluated at the malformed
identifier "bad-id" on the empty store. -/
theorem idValidation_amended_witness :
    getCategoryById "bad-id" ⟨[], []⟩ = ⟨400, Body.message "Invalid category ID format"⟩
    ∧ updateCategory "bad-id" (some "Birds") ⟨[], []⟩
        = (⟨400, Body.message "Invalid category ID format"⟩, ⟨[], []⟩)
    ∧ deleteCategory "bad-id" ⟨[], []⟩
        = (⟨400, Body.message "Invalid category ID format"⟩, ⟨[], []⟩)
    ∧ (deleteAnimal "bad-id" ⟨[], []⟩).1 = ⟨500, Body.message "Error deleting animal"⟩
    ∧ getAnimalsByCategoryId "bad-id" ⟨[], []⟩
        = ⟨500, Body.message "Error fetching animals by category ID"⟩
    ∧ (addAnimal (some "bad-id") (some "Lion") (some "f.png") "x" ⟨[], []⟩).1
        = ⟨500, Body.message "Internal server error while adding animal."⟩ :=
  ⟨(idValidation_amended "bad-id" ⟨[], []⟩ (by decide)).1,
   (idValidation_amended "bad-id" ⟨[], []⟩ (by decide)).2.1 (some "Birds"),
   (idValidation_amended "bad-id" ⟨[], []⟩ (by decide)).2.2.1,
   (idValidation_amended "bad-id" ⟨[], []⟩ (by decide)).2.2.2.1,
   (idValidation_amended "bad-id" ⟨[], []⟩ (by decide)).2.2.2.2.1,
   (idValidation_amended "bad-id" ⟨[], []⟩ (by decide)).2.2.2.2.2 (some "Lion") (some "f.png")
     "x" (by decide) (by decide) rfl⟩

/-- Counterexample to claim C2 as stated: a create-animal request whose file
is one byte over the 5 MiB limit is answered with status 500 (the multer
size-limit error carries no HTTP status, so the default Express error handler
answers 500), not the claimed 400 client error. -/
theorem uploadLimit_claim_counterexample :
    (postAnimalCategoryRoute 0 "bbbbbbbbbbbbbbbbbbbbbbbb" (some "aaaaaaaaaaaaaaaaaaaaaaaa")
        (some "Iguana") (some ⟨"big.png", 5 * 1024 * 1024 + 1⟩) ⟨[], []⟩ []).1
      = ⟨500, Body.message "File too large"⟩ := by
  decide

/-- Claim C2 as amended: a create-animal request whose uploaded file exceeds
5 MiB is rejected before the handler body executes — the store and the
uploads directory are left untouched — but the rejection surfaces as a 500
server error from the framework default error handler, not a 400. -/
theorem uploadLimit_amended (now : Nat) (freshId : String)
    (categoryId name : Option String) (file : UploadedFile)
    (s : StoreState) (fs : List String)
    (hbig : multerFileSizeLimit < file.size) :
    postAnimalCategoryRoute now freshId categoryId name (some file) s fs
      = (⟨500, Body.message "File too large"⟩, s, fs) := by
  simp [postAnimalCategoryRoute, uploadAnimalImage, hbig]

/-- Witness for amended C2: a concrete oversized upload answers 500 and
leaves the store and the uploads directory unchanged. -/
theorem uploadLimit_amended_witness :
    postAnimalCategoryRoute 7 "x" (some "aaaaaaaaaaaaaaaaaaaaaaaa") (some "Lion")
        (some ⟨"big.png", 5242881⟩) ⟨[], []⟩ []
      = (⟨500, Body.message "File too large"⟩, ⟨[], []⟩, []) :=
  uploadLimit_amended 7 "x" (some "aaaaaaaaaaaaaaaaaaaaaaaa") (some "Lion")
    ⟨"big.png", 5242881⟩ ⟨[], []⟩ [] (by decide)

/-- Claim C9: when a create-animal request carries a file within the size
limit but the handler then fails — missing name (400), or well-formed but
absent category (404) — the file has already been written by the middleware,
stays in the uploads directory, is retrievable through the static URL
prefix, and no animal is persisted. -/
theorem failed_addAnimal_leaves_uploaded_file (now : Nat) (freshId : String)
    (categoryId name : Option String) (file : UploadedFile)
    (s : StoreState) (fs : List String)
    (hsize : file.size ≤ multerFileSizeLimit)
    (hfail : isTruthy name = false
      ∨ (isTruthy categoryId = true ∧ isTruthy name = true
          ∧ categoryFindById (categoryId.getD "") s = Except.ok none)) :
    ((postAnimalCategoryRoute now freshId categoryId name (some file) s fs).1.status = 400
        ∨ (postAnimalCategoryRoute now freshId categoryId name (some file) s fs).1.status = 404)
    ∧ (toString now ++ "-" ++ file.originalname)
        ∈ (postAnimalCategoryRoute now freshId categoryId name (some file) s fs).2.2
    ∧ staticServes (staticUrlOf (toString now ++ "-" ++ file.originalname))
        (postAnimalCategoryRoute now freshId categoryId name (some file) s fs).2.2 = true
    ∧ ((postAnimalCategoryRoute now freshId categoryId name (some file) s fs).2.1).animals
        = s.animals := by
  have hns : ¬ (multerFileSizeLimit < file.size) := Nat.not_lt.mpr hsize
  rcases hfail with hn | ⟨hc, hn, hcat⟩
  · by_cases hc : isTruthy categoryId <;>
      simp [postAnimalCategoryRoute, uploadAnimalImage, hns, addAnimal, hn, hc,
        staticServes, staticUrlOf]
  · simp [postAnimalCategoryRoute, uploadAnimalImage, hns, addAnimal, hn, hc, hcat,
      staticServes, staticUrlOf]

/-- Witness for C9: a concrete request with a file but no name is rejected,
yet the stored file remains and is served, and no animal is persisted. -/
theorem failed_addAnimal_leaves_uploaded_file_witness :
    ((postAnimalCategoryRoute 5 "x" (some "aaaaaaaaaaaaaaaaaaaaaaaa") none
          (some ⟨"cat.png", 100⟩) ⟨[], []⟩ []).1.status = 400
        ∨ (postAnimalCategoryRoute 5 "x" (some "aaaaaaaaaaaaaaaaaaaaaaaa") none
          (some ⟨"cat.png", 100⟩) ⟨[], []⟩ []).1.status = 404)
    ∧ "5-cat.png" ∈ (postAnimalCategoryRoute 5 "x" (some "aaaaaaaaaaaaaaaaaaaaaaaa") none
          (some ⟨"cat.png", 100⟩) ⟨[], []⟩ []).2.2
    ∧ staticServes (staticUrlOf "5-cat.png")
        (postAnimalCategoryRoute 5 "x" (some "aaaaaaaaaaaaaaaaaaaaaaaa") none
          (some ⟨"cat.png", 100⟩) ⟨[], []⟩ []).2.2 = true
    ∧ ((postAnimalCategoryRoute 5 "x" (some "aaaaaaaaaaaaaaaaaaaaaaaa") none
          (some ⟨"cat.png", 100⟩) ⟨[], []⟩ []).2.1).animals = [] :=
  failed_addAnimal_leaves_uploaded_file 5 "x" (some "aaaaaaaaaaaaaaaaaaaaaaaa") none
    ⟨"cat.png", 100⟩ ⟨[], []⟩ [] (by decide) (Or.inl (by decide))

/-- Claim C5: the round trip — on a store where the fresh category id is
unused and no animal references it, creating the category Reptiles, then
creating the animal Iguana under it with an uploaded image, then listing
animals by that category id returns exactly one animal named Iguana whose
category field is populated to the full category object (both creations
succeeding with 201). -/
theorem roundTrip_reptiles_iguana (s : StoreState) (fs : List String) (now : Nat)
    (cid aid : String) (file : UploadedFile)
    (hvalid : isValidObjectId cid = true)
    (hfreshc : s.categories.find? (fun c => c._id == cid) = none)
    (hnoanimal : s.animals.filter (fun a => a.category == some cid) = [])
    (hsize : file.size ≤ multerFileSizeLimit) :
    (addCategory (some "Reptiles") cid s).1 = ⟨201, Body.category ⟨cid, "Reptiles"⟩⟩
    ∧ (postAnimalCategoryRoute now aid (some cid) (some "Iguana") (some file)
        (addCategory (some "Reptiles") cid s).2 fs).1.status = 201
    ∧ getAnimalsByCategoryId cid
        (postAnimalCategoryRoute now aid (some cid) (some "Iguana") (some file)
          (addCategory (some "Reptiles") cid s).2 fs).2.1
      = ⟨200, Body.animals
          [⟨aid, "Iguana",
            some ("/uploads/animals/" ++ (toString now ++ "-" ++ file.originalname)),
            some ⟨cid, "Reptiles"⟩⟩]⟩ := by
  have hns : ¬ (multerFileSizeLimit < file.size) := Nat.not_lt.mpr hsize
  have hcidne : cid ≠ "" := by
    intro he
    rw [he] at hvalid
    exact absurd hvalid (by decide)
  have hnone : ∀ x ∈ s.categories, ¬(x._id = cid) := by
    intro x hx
    simpa using List.find?_eq_none.mp hfreshc x hx
  have h1 : addCategory (some "Reptiles") cid s
      = (⟨201, Body.category ⟨cid, "Reptiles"⟩⟩,
         { s with categories := s.categories ++ [⟨cid, "Reptiles"⟩] }) := by
    simp [addCategory, isTruthy]
  have hfind1 : (s.categories ++ [(⟨cid, "Reptiles"⟩ : Category)]).find?
      (fun c => c._id == cid) = some ⟨cid, "Reptiles"⟩ := by
    rw [List.find?_append, hfreshc]
    simp [List.find?]
  have h2 : postAnimalCategoryRoute now aid (some cid) (some "Iguana") (some file)
      { s with categories := s.categories ++ [⟨cid, "Reptiles"⟩] } fs
      = (⟨201, Body.animalCreated "Animal added successfully."
            ⟨aid, "Iguana",
              some ("/uploads/animals/" ++ (toString now ++ "-" ++ file.originalname)),
              some cid⟩⟩,
         { categories := s.categories ++ [⟨cid, "Reptiles"⟩],
           animals := s.animals ++
             [⟨aid, "Iguana",
               some ("/uploads/animals/" ++ (toString now ++ "-" ++ file.originalname)),
               some cid⟩] },
         (toString now ++ "-" ++ file.originalname) :: fs) := by
    simp [postAnimalCategoryRoute, uploadAnimalImage, hns, addAnimal, isTruthy, hcidne,
      categoryFindById, hvalid, hfind1]
  have h3 : getAnimalsByCategoryId cid
      { categories := s.categories ++ [(⟨cid, "Reptiles"⟩ : Category)],
        animals := s.animals ++
          [⟨aid, "Iguana",
            some ("/uploads/animals/" ++ (toString now ++ "-" ++ file.originalname)),
            some cid⟩] }
      = ⟨200, Body.animals
          [⟨aid, "Iguana",
            some ("/uploads/animals/" ++ (toString now ++ "-" ++ file.originalname)),
            some ⟨cid, "Reptiles"⟩⟩]⟩ := by
    simp [getAnimalsByCategoryId, animalFindByCategory, hvalid, List.filter_append,
      hnoanimal, populateAnimal, hfind1]
    exact Or.inr hnone
  refine ⟨by rw [h1], ?_, ?_⟩
  · simp only [h1, h2]
  · simp only [h1, h2]
    exact h3

/-- Witness for C5: the round trip on the empty store with concrete ids,
timestamp 0 and the file iguana.png. -/
theorem roundTrip_reptiles_iguana_witness :
    (addCategory (some "Reptiles") "aaaaaaaaaaaaaaaaaaaaaaaa" ⟨[], []⟩).1
        = ⟨201, Body.category ⟨"aaaaaaaaaaaaaaaaaaaaaaaa", "Reptiles"⟩⟩
    ∧ (postAnimalCategoryRoute 0 "bbbbbbbbbbbbbbbbbbbbbbbb" (some "aaaaaaaaaaaaaaaaaaaaaaaa")
        (some "Iguana") (some ⟨"iguana.png", 1000⟩)
        (addCategory (some "Reptiles") "aaaaaaaaaaaaaaaaaaaaaaaa" ⟨[], []⟩).2 []).1.status = 201
    ∧ getAnimalsByCategoryId "aaaaaaaaaaaaaaaaaaaaaaaa"
        (postAnimalCategoryRoute 0 "bbbbbbbbbbbbbbbbbbbbbbbb" (some "aaaaaaaaaaaaaaaaaaaaaaaa")
          (some "Iguana") (some ⟨"iguana.png", 1000⟩)
          (addCategory (some "Reptiles") "aaaaaaaaaaaaaaaaaaaaaaaa" ⟨[], []⟩).2 []).2.1
      = ⟨200, Body.animals
          [⟨"bbbbbbbbbbbbbbbbbbbbbbbb", "Iguana", some "/uploads/animals/0-iguana.png",
            some ⟨"aaaaaaaaaaaaaaaaaaaaaaaa", "Reptiles"⟩⟩]⟩ :=
  roundTrip_reptiles_iguana ⟨[], []⟩ [] 0 "aaaaaaaaaaaaaaaaaaaaaaaa" "bbbbbbbbbbbbbbbbbbbbbbbb"
    ⟨"iguana.png", 1000⟩ (by decide) rfl rfl (by decide)
